import Mathlib

/-!
Verification of the JoulIAna mail-watcher / chat-controller program
(`src/main.py`) against its natural-language specification.

The Python source is shallowly embedded: bytes are `List Nat`, Python
exceptions become `Except`-values or explicit "raised" flags threaded with
the partial state, external collaborators (POP3 server, Telegram transport,
SMTP, Vertex AI, `email.header.decode_header`) are oracle fields of an
environment record, and each Python function keeps its source name.
-/

namespace JoulIAna

/- ===================================================================
   Python value/decoding model, used by `decodificar_texto` (main.py 104-111)
   =================================================================== -/

/- ===================================================================
   Executable string primitives (structural recursion only, so that the
   kernel can evaluate concrete runs), modelling the Python string
   operations the source uses.
   =================================================================== -/

/-- Python `s.lower()` (ASCII case folding; the source's keyword sets are
ASCII-lowercase, so only ASCII folding is exercised by the claims). -/
def pyLower (s : String) : String := String.mk (s.data.map Char.toLower)

/-- Does `needle` occur as a contiguous sublist of `hay`? Models Python's
substring test `needle in hay` on the character level. -/
def occursIn (needle : List Char) : List Char → Bool
  | [] => needle.isEmpty
  | c :: rest => needle.isPrefixOf (c :: rest) || occursIn needle rest

/-- Python `needle in hay` for strings. -/
def strContains (hay needle : String) : Bool := occursIn needle.data hay.data

/-- Python `any(x in hay for x in needles)`. -/
def containsAny (hay : String) (needles : List String) : Bool :=
  needles.any (fun k => strContains hay k)

/-- Python `s.split(sep)` for a one-character separator: empty fields are
kept, and the result always has at least one element. -/
def splitCh (sep : Char) : List Char → List (List Char)
  | [] => [[]]
  | c :: rest =>
    let r := splitCh sep rest
    if c = sep then [] :: r
    else
      match r with
      | h :: t => (c :: h) :: t
      | [] => [[c]]

/-- Python `s.split(sep)` on strings, one-character separator. -/
def pySplit (s : String) (sep : Char) : List String :=
  (splitCh sep s.data).map String.mk

/-- Python `s.replace(str(ch), "")`: remove every occurrence of `ch`. -/
def removeCh (ch : Char) (s : String) : String :=
  String.mk (s.data.filter (fun c => ¬ c = ch))

/-- Python `s.strip()` (whitespace from both ends). -/
def pyStrip (s : String) : String :=
  String.mk (((s.data.dropWhile Char.isWhitespace).reverse.dropWhile Char.isWhitespace).reverse)

/-- Python `s[:n]` character slice. -/
def pyTake (n : Nat) (s : String) : String := String.mk (s.data.take n)

/-- Decimal digit value of a character, if any. -/
def digitVal (c : Char) : Option Nat :=
  if '0' ≤ c ∧ c ≤ '9' then some (c.toNat - 48) else none

/-- Accumulate a decimal number from digits; `none` on a non-digit. -/
def digitsToNatAux : List Char → Nat → Option Nat
  | [], acc => some acc
  | c :: rest, acc =>
    match digitVal c with
    | some d => digitsToNatAux rest (acc * 10 + d)
    | none => none

/-- Python `int(s)` on a plain decimal literal with optional sign;
`none` models the `ValueError` it raises on anything else. -/
def pyInt? (s : String) : Option Int :=
  match s.data with
  | [] => none
  | '-' :: rest =>
    if rest.isEmpty then none
    else (digitsToNatAux rest 0).map (fun n => -(n : Int))
  | '+' :: rest =>
    if rest.isEmpty then none
    else (digitsToNatAux rest 0).map (fun n => (n : Int))
  | l => (digitsToNatAux l 0).map (fun n => (n : Int))

/-- Decidable equality on `Except`, so that concrete runs of the embedded
functions can be checked by `decide`. -/
instance {ε α : Type} [DecidableEq ε] [DecidableEq α] : DecidableEq (Except ε α)
  | .ok a, .ok b =>
    if h : a = b then .isTrue (by rw [h]) else .isFalse (by simp [h])
  | .error a, .error b =>
    if h : a = b then .isTrue (by rw [h]) else .isFalse (by simp [h])
  | .ok _, .error _ => .isFalse (by simp)
  | .error _, .ok _ => .isFalse (by simp)

/-- Python decoding exceptions relevant to `bytes.decode`:
`LookupError` (unknown codec name) and `UnicodeDecodeError` (bytes invalid
for the codec). -/
inductive PyDecErr where
  | lookupError
  | unicodeDecodeError
deriving DecidableEq, Repr

/-- A Python value as it reaches `decodificar_texto`: a byte string,
a text string, or `None` (e.g. `get_payload(decode=True)` returning `None`). -/
inductive PyVal where
  | bytes (bs : List Nat)
  | str (s : String)
  | pyNone
deriving DecidableEq, Repr

/-- Is `b` a UTF-8 continuation byte (`0x80..0xBF`)? -/
def utf8Cont (b : Nat) : Bool := decide (0x80 ≤ b ∧ b ≤ 0xBF)

/-- Allowed second byte after a three-byte leader, per strict (CPython)
UTF-8: `E0` requires `A0..BF` (no overlongs), `ED` requires `80..9F`
(no surrogates). -/
def utf8Second3 (b b1 : Nat) : Bool :=
  if b = 0xE0 then decide (0xA0 ≤ b1 ∧ b1 ≤ 0xBF)
  else if b = 0xED then decide (0x80 ≤ b1 ∧ b1 ≤ 0x9F)
  else utf8Cont b1

/-- Allowed second byte after a four-byte leader: `F0` requires `90..BF`
(no overlongs), `F4` requires `80..8F` (≤ U+10FFFF). -/
def utf8Second4 (b b1 : Nat) : Bool :=
  if b = 0xF0 then decide (0x90 ≤ b1 ∧ b1 ≤ 0xBF)
  else if b = 0xF4 then decide (0x80 ≤ b1 ∧ b1 ≤ 0x8F)
  else utf8Cont b1

/-- Strict UTF-8 decoding of a byte list to code points; `none` models a
`UnicodeDecodeError`. -/
def utf8Cps : List Nat → Option (List Nat)
  | [] => some []
  | b :: rest =>
    if b ≤ 0x7F then (utf8Cps rest).map (fun cs => b :: cs)
    else if 0xC2 ≤ b ∧ b ≤ 0xDF then
      match rest with
      | b1 :: rest2 =>
        if utf8Cont b1 then
          (utf8Cps rest2).map (fun cs => ((b - 0xC0) * 64 + (b1 - 0x80)) :: cs)
        else none
      | [] => none
    else if 0xE0 ≤ b ∧ b ≤ 0xEF then
      match rest with
      | b1 :: b2 :: rest3 =>
        if utf8Second3 b b1 && utf8Cont b2 then
          (utf8Cps rest3).map
            (fun cs => ((b - 0xE0) * 4096 + (b1 - 0x80) * 64 + (b2 - 0x80)) :: cs)
        else none
      | _ => none
    else if 0xF0 ≤ b ∧ b ≤ 0xF4 then
      match rest with
      | b1 :: b2 :: b3 :: rest4 =>
        if utf8Second4 b b1 && utf8Cont b2 && utf8Cont b3 then
          (utf8Cps rest4).map
            (fun cs =>
              ((b - 0xF0) * 262144 + (b1 - 0x80) * 4096 + (b2 - 0x80) * 64 + (b3 - 0x80)) :: cs)
        else none
      | _ => none
    else none

/-- Turn a list of Unicode code points into a Lean string. -/
def cpsToString (cps : List Nat) : String := String.mk (cps.map Char.ofNat)

/-- `bytes.decode('latin-1')`: every byte maps to the code point of the same
value, so this decoding is total (with or without `errors='ignore'`). -/
def latin1Decode (bs : List Nat) : String := String.mk (bs.map Char.ofNat)

/-- The codec names our model of Python's codec registry recognises
(after lower-casing); every other name raises `LookupError` on lookup. -/
def knownCodec (n0 : String) : Prop :=
  let n := pyLower n0
  (n = "utf-8" ∨ n = "utf8" ∨ n = "u8") ∨
  (n = "latin-1" ∨ n = "latin1" ∨ n = "iso-8859-1" ∨ n = "l1") ∨
  (n = "ascii" ∨ n = "us-ascii")

instance (n0 : String) : Decidable (knownCodec n0) := by
  unfold knownCodec; infer_instance

/-- `bs.decode(enc)` in strict mode: unknown codec names raise
`LookupError` before any byte is examined; known codecs either decode or
raise `UnicodeDecodeError`. -/
def pyDecode (enc : String) (bs : List Nat) : Except PyDecErr String :=
  let n := pyLower enc
  if n = "utf-8" ∨ n = "utf8" ∨ n = "u8" then
    match utf8Cps bs with
    | some cps => .ok (cpsToString cps)
    | none => .error .unicodeDecodeError
  else if n = "latin-1" ∨ n = "latin1" ∨ n = "iso-8859-1" ∨ n = "l1" then
    .ok (latin1Decode bs)
  else if n = "ascii" ∨ n = "us-ascii" then
    if bs.all (fun b => b ≤ 0x7F) then .ok (cpsToString bs)
    else .error .unicodeDecodeError
  else .error .lookupError

/-- Python truthiness fallback `encoding or 'utf-8'` for an optional
string: `None` and the empty string are falsy. -/
def orUtf8 : Option String → String
  | none => "utf-8"
  | some s => if s = "" then "utf-8" else s

/-- `decodificar_texto` (main.py 104-111). The `try` block attempts
`texto.decode(encoding or 'utf-8')`; only `UnicodeDecodeError` is caught
and answered with `texto.decode('latin-1', errors='ignore')` (total);
a `LookupError` from an unknown codec name propagates to the caller.
Non-bytes input is answered with `str(texto)`. -/
def decodificar_texto (texto : PyVal) (encoding : Option String) : Except PyDecErr String :=
  match texto with
  | .bytes bs =>
    match pyDecode (orUtf8 encoding) bs with
    | .ok s => .ok s
    | .error .unicodeDecodeError => .ok (latin1Decode bs)
    | .error .lookupError => .error .lookupError
  | .str s => .ok s
  | .pyNone => .ok "None"

/- ===================================================================
   Shared global state (main.py 82-88) and the chat controller
   `responder_chat` (main.py 204-306)
   =================================================================== -/

/-- `BotState` (main.py 82-88): the shared mutable record. -/
structure BotState where
  ultimo_remitente : Option String := none
  ultimo_asunto : Option String := none
  modo_respuesta : Bool := false
  modo_ticket : Bool := false
deriving DecidableEq, Repr

/-- The all-defaults initial `BotState`. -/
def bs0 : BotState := {}

/-- Python truthiness of an `Optional[str]`: `None` and `""` are falsy. -/
def optStrTruthy : Option String → Bool
  | none => false
  | some s => !(s == "")

/-- f-string interpolation of an `Optional[str]`: `None` prints as "None". -/
def optStrPy : Option String → String
  | none => "None"
  | some s => s

/-- External collaborators of the chat controller: the raw Vertex AI call
(`model.generate_content(...).text`, which may raise) and the SMTP outcome
of `enviar_correo_respuesta` (which catches internally and reports success
as a Bool). -/
structure ChatEnv where
  gemini : String → Except Unit String
  smtp : Option String → Option String → String → Bool

/-- The placeholder answered by `preguntar_a_gemini` when the model call
fails (main.py 177). -/
def aiUnavailable : String := "⚠️ Error: La IA no está disponible en este momento."

/-- `preguntar_a_gemini` (main.py 170-177): returns
`response.text.strip()` on success and the fixed placeholder on any
exception — it never raises. -/
def preguntar_a_gemini (gem : String → Except Unit String) (prompt : String) : String :=
  match gem prompt with
  | .ok t => pyStrip t
  | .error _ => aiUnavailable

/-- Keywords accepted as affirmative in ticket-confirmation mode
(main.py 217). -/
def ticketAffirmKeys : List String := ["si", "sí", "claro", "por favor", "hazlo", "simon"]

/-- Keywords scanned in the drafted body to offer a ticket (main.py 274). -/
def ticketScanKeys : List String := ["ticket", "incidencia", "soporte", "falla"]

/-- Affirmative keywords in the idle flow (main.py 290). -/
def idleAffirmKeys : List String := ["si", "sí", "claro", "responder", "ok", "simon"]

/-- Negative keywords in the idle flow (main.py 297). -/
def idleNegKeys : List String := ["no", "nel", "nop", "luego", "gracias"]

/-- The static mock ticket confirmation (main.py 221-229). -/
def ticketCreatedMsg : String :=
  "✨¡Entendido Jefe! Generando ticket...\n\n✅Ticket Creado\n🎫ID: #INC-2026-8492\n📌Categoría: Hardware / Periféricos\n👤Asignado a: Soporte Nivel 1\n📅SLA: 24 hrs\n\nRegistrado en sistema. Le notificaré cambios de estatus."

/-- The reply-drafting prompt (main.py 241-264), with `state.ultimo_remitente`,
`state.ultimo_asunto` and `message.text` interpolated. -/
def promptRespuesta (remitente asunto : Option String) (texto : String) : String :=
  "\n        ACTÚA COMO: JoulIAna, la asistente de IA de Jared Abarca (Analista TI).\n        \n        SITUACIÓN:\n        Jared (tu jefe) te está dictando una respuesta para un correo que recibió.\n        \n        DATOS:\n        - Destinatario: " ++
  optStrPy remitente ++
  "\n        - Asunto Original: " ++
  optStrPy asunto ++
  "\n        - LO QUE JARED DICE (Tu instrucción): \"" ++
  texto ++
  "\"\n        \n        TU TAREA:\n        Redactar el correo de respuesta transmitiendo el mensaje de Jared.\n        NO asumas que el mensaje es para ti. Si Jared dice \"funciona bien\", significa que ÉL opina que funciona bien.\n        \n        FORMATO OBLIGATORIO:\n        1. Saludo: \"Le escribe JoulIAna en nombre de Jared.\"\n        2. Cuerpo: \"Jared comenta que [Aquí adapta lo que dijo Jared en tercera persona o transmitiendo su idea exacta]...\"\n        3. Cierre: \"Atentamente, JoulIAna | IA Assistant\".\n        \n        IMPORTANTE: No agradezcas feedback a menos que Jared te diga \"Dile gracias\". Solo transmite su mensaje.\n        REGLA DE ORO:\n        SOLO dame el CUERPO del correo. NO incluyas \"Asunto:\", \"Para:\", ni cabeceras. Empieza directo con el saludo.\n        "

/-- The generic persona prompt of the idle flow (main.py 302-305). -/
def promptChat (texto : String) : String :=
  "Eres JoulIAna, asistente leal y eficiente de Jared (IT). Input usuario: " ++
  texto ++ ". Responde con personalidad."

/-- Confirmation reply after a successful send (main.py 271). -/
def listoMsg (cuerpo : String) : String :=
  "✅ ¡Listo Jefe! Enviado.\n\nCopia:\n---\n" ++ cuerpo ++ "\n---"

/-- Proactive ticket offer (main.py 277-281). -/
def sugerenciaMsg : String :=
  "Sugerencia Proactiva:\nOfrecí levantar ticket en el correo.\n¿Quiere que simulemos la creación del ticket ahora? (Sí / No)"

/-- Prompt-for-dictation reply (main.py 293). -/
def conGustoMsg (r : Option String) : String :=
  "📝Con gusto.\n¿Qué respondemos a " ++ optStrPy r ++ "?"

/-- Observable outbound actions of one chat turn, in program order. -/
inductive ChatAction where
  | typing
  | reply (text : String)
  | send (text : String)
  | email (dest asunto : Option String) (cuerpo : String) (exito : Bool)
deriving DecidableEq, Repr

/-- `responder_chat` (main.py 204-306): one chat turn. Takes the shared
state and the inbound text, returns the updated state and the outbound
actions. `enviar_correo_respuesta` never raises (it catches internally and
returns a success Bool, here `env.smtp`), and `preguntar_a_gemini` never
raises, so a turn always runs to completion. -/
def responder_chat (env : ChatEnv) (s : BotState) (text : String) :
    BotState × List ChatAction :=
  let usuario_input := pyLower text
  if s.modo_ticket then
    -- ESTADO 1: DEMO TICKET SYSTEM (main.py 216-234)
    if containsAny usuario_input ticketAffirmKeys then
      ({ s with modo_ticket := false }, [.typing, .reply ticketCreatedMsg])
    else
      ({ s with modo_ticket := false }, [.reply "Comprendido. No se generó ticket."])
  else if s.modo_respuesta then
    -- ESTADO 2: MODO REDACCIÓN DE CORREO (main.py 237-287)
    let prompt := promptRespuesta s.ultimo_remitente s.ultimo_asunto text
    let cuerpo_final := preguntar_a_gemini env.gemini prompt
    let exito := env.smtp s.ultimo_remitente s.ultimo_asunto cuerpo_final
    let acts0 : List ChatAction :=
      [.send "A la orden Jared, redactando su correo...",
       .email s.ultimo_remitente s.ultimo_asunto cuerpo_final exito]
    if exito then
      if containsAny (pyLower cuerpo_final) ticketScanKeys then
        ({ s with modo_respuesta := false, modo_ticket := true },
         acts0 ++ [.reply (listoMsg cuerpo_final), .send sugerenciaMsg])
      else
        ({ s with modo_respuesta := false }, acts0 ++ [.reply (listoMsg cuerpo_final)])
    else
      ({ s with modo_respuesta := false },
       acts0 ++ [.reply "😰 Error de conexión SMTP. Revise los logs."])
  else
    -- ESTADO 3: FLUJO GENERAL / COMANDOS (main.py 290-306)
    if containsAny usuario_input idleAffirmKeys then
      if optStrTruthy s.ultimo_remitente then
        ({ s with modo_respuesta := true }, [.reply (conGustoMsg s.ultimo_remitente)])
      else
        (s, [.reply "🤷‍♀️ No hay correos recientes en memoria."])
    else if containsAny usuario_input idleNegKeys then
      (s, [.reply "👍 Enterado. Quedo a la espera."])
    else
      (s, [.reply (preguntar_a_gemini env.gemini (promptChat text))])

/-- At most one of the two awaiting modes is set. -/
def atMostOneMode (s : BotState) : Bool := !(s.modo_respuesta && s.modo_ticket)

/- ===================================================================
   Mail parsing utilities (main.py 113-163) and the watcher poll cycle
   `ciclo_correos` (main.py 313-387)
   =================================================================== -/

/-- The fields of an `email.message.Message` that the source reads:
`msg["Subject"]`, `msg.get("From")`, `is_multipart()`, the first
`text/plain` part found by `walk()` (its `get_payload(decode=True)` value
and `get_content_charset()`), and the non-multipart payload and charset. -/
structure EmailMsg where
  subjectRaw : Option String
  fromHdr : Option String
  multipart : Bool
  textPlain : Option (PyVal × Option String)
  payload : PyVal
  charset : Option String
deriving DecidableEq, Repr

/-- `obtener_asunto_y_remitente` (main.py 113-127). `decode_header` is the
standard library's RFC-2047 parser, passed in as an oracle `dh`; any
exception inside the `try` (from `dh`, from an empty decoded list, or from
`decodificar_texto`) falls back to `str(subject_raw)`. -/
def obtener_asunto_y_remitente
    (dh : String → Except Unit (List (PyVal × Option String)))
    (msg : EmailMsg) : String × String :=
  let subject_str :=
    match msg.subjectRaw with
    | none => "(Sin Asunto)"
    | some raw =>
      if raw = "" then "(Sin Asunto)"
      else
        match dh raw with
        | .error _ => raw
        | .ok [] => raw
        | .ok ((sv, enc) :: _) =>
          match decodificar_texto sv enc with
          | .ok s => s
          | .error _ => raw
  let sender := msg.fromHdr.getD "Desconocido"
  (subject_str, sender)

/-- `obtener_cuerpo` (main.py 129-146): body defaults to
"Sin contenido legible."; a decoding exception is caught and leaves the
default in place. -/
def obtener_cuerpo (msg : EmailMsg) : String :=
  if msg.multipart then
    match msg.textPlain with
    | none => "Sin contenido legible."
    | some pc =>
      match decodificar_texto pc.1 pc.2 with
      | .ok s => s
      | .error _ => "Sin contenido legible."
  else
    match decodificar_texto msg.payload msg.charset with
    | .ok s => s
    | .error _ => "Sin contenido legible."

/-- Lookup in the `{UID: número}` association list (`uid_map.get(uid)`). -/
def mapGet? (m : List (String × Int)) (k : String) : Option Int :=
  match m.find? (fun p => p.1 == k) with
  | some p => some p.2
  | none => none

/-- `uid_map[uid] = num`: overwrite an existing binding or append. -/
def mapUpd (m : List (String × Int)) (k : String) (v : Int) : List (String × Int) :=
  if m.any (fun p => p.1 == k) then
    m.map (fun p => if p.1 == k then (k, v) else p)
  else m ++ [(k, v)]

/-- `uids.add(uid)`: Python set insertion, modelled as an
insertion-ordered duplicate-free list. -/
def addUid (uids : List String) (u : String) : List String :=
  if uids.contains u then uids else uids ++ [u]

/-- Loop body of `obtener_lista_uids_con_mapa` over the (already decoded)
UIDL response lines: each line is split on a space; lines with fewer than
two fields are skipped; `int(parts[0])` raising `ValueError` aborts the
whole listing (and with it the cycle). -/
def uidlLoop : List String → List String → List (String × Int) →
    Except Unit (List String × List (String × Int))
  | [], uids, m => .ok (uids, m)
  | item :: rest, uids, m =>
    match pySplit item ' ' with
    | p0 :: p1 :: _ =>
      match pyInt? p0 with
      | none => .error ()
      | some num => uidlLoop rest (addUid uids p1) (mapUpd m p1 num)
    | _ => uidlLoop rest uids m

/-- `obtener_lista_uids_con_mapa` (main.py 148-163). -/
def obtener_lista_uids_con_mapa (items : List String) :
    Except Unit (List String × List (String × Int)) :=
  uidlLoop items [] []

/-- External collaborators of one poll cycle. `connect` covers
`POP3_SSL(...)`, `user(...)` and `pass_(...)`; `uidl` covers
`pop_conn.uidl()` together with the `item.decode()` of each line; `retr`
covers `pop_conn.retr(n)` plus `email.message_from_bytes`; `decodeHeader`
is the stdlib `decode_header`; `gemini` the raw Vertex AI call;
`sendTelegram` the `bot.send_message(TELEGRAM_CHAT_ID, ...)` push.
Each may raise. -/
structure WatchEnv where
  connect : Except Unit Unit
  uidl : Except Unit (List String)
  retr : Int → Except Unit EmailMsg
  decodeHeader : String → Except Unit (List (PyVal × Option String))
  gemini : String → Except Unit String
  sendTelegram : String → Except Unit Unit

/-- Sender sanitisation (main.py 352-355):
`remitente.split("<")[1].replace(">", "")` when an angle bracket occurs,
the raw sender otherwise. -/
def limpiarRemitente (remitente : String) : String :=
  if strContains remitente "<" then
    removeCh '>' ((pySplit remitente '<').getD 1 "")
  else remitente

/-- The summary prompt (main.py 362-366), body truncated to 1500 chars. -/
def mkResumenPrompt (remitente asunto cuerpo : String) : String :=
  "\n                            Eres JoulIAna. Analiza para Jared:\n                            De: " ++
  remitente ++ " | Asunto: " ++ asunto ++ " | Cuerpo: " ++ pyTake 1500 cuerpo ++
  "\n                            Dame un resumen EJECUTIVO y CORTO (máx 6 líneas).\n                            "

/-- The push-notification text (main.py 370-378). -/
def mkAlerta (remitente asunto resumen : String) : String :=
  "✨Hola Jefe, tienes correo nuevo\n📧De: `" ++ remitente ++ "`\n📝Asunto: " ++
  asunto ++ "\n------------------\n" ++ resumen ++
  "\n------------------\n¿Le gustaría responder ahora?"

/-- Per-UID processing inside the `for uid in nuevos` loop
(main.py 340-379). Returns the (possibly partially updated) shared
`BotState`, the notifications pushed, and whether an exception was raised.
There is no per-message `try` in the source, so a raise propagates to the
cycle-level handler; state writes made before the raise persist. -/
def procesar_uid (env : WatchEnv) (uid_map : List (String × Int))
    (bs : BotState) (uid : String) : BotState × List String × Bool :=
  match mapGet? uid_map uid with
  | none => (bs, [], false)          -- uid_map.get(uid) is None: `if msg_num:` skips
  | some msg_num =>
    if msg_num = 0 then (bs, [], false)   -- int 0 is falsy: skipped
    else
      match env.retr msg_num with
      | .error _ => (bs, [], true)
      | .ok msg =>
        let ar := obtener_asunto_y_remitente env.decodeHeader msg
        let asunto := ar.1
        let remitente := ar.2
        let cuerpo_mensaje := obtener_cuerpo msg
        let email_limpio := limpiarRemitente remitente
        let bs2 := { bs with
          ultimo_remitente := some email_limpio, ultimo_asunto := some asunto }
        let resumen_ia :=
          preguntar_a_gemini env.gemini (mkResumenPrompt remitente asunto cuerpo_mensaje)
        let alerta := mkAlerta remitente asunto resumen_ia
        match env.sendTelegram alerta with
        | .error _ => (bs2, [], true)
        | .ok _ => (bs2, [alerta], false)

/-- The `for uid in nuevos` loop: processing stops at the first raised
exception (no per-message handler exists in the source). Python set
iteration order is unspecified; it is determinised here to the server
listing order. -/
def procesar_nuevos (env : WatchEnv) (uid_map : List (String × Int)) :
    List String → BotState → BotState × List String × Bool
  | [], bs => (bs, [], false)
  | uid :: rest, bs =>
    match procesar_uid env uid_map bs uid with
    | (bs2, ns, true) => (bs2, ns, true)
    | (bs2, ns, false) =>
      match procesar_nuevos env uid_map rest bs2 with
      | (bs3, ns2, raised) => (bs3, ns ++ ns2, raised)

/-- The watcher's own loop state across cycles (main.py 319-320). -/
structure WatchState where
  uids_conocidos : List String
  primera_vuelta : Bool
deriving DecidableEq, Repr

/-- One iteration of the `while True` body of `ciclo_correos`
(main.py 322-387), minus the sleep. The surrounding `try/except` only
logs, so an exception anywhere leaves exactly the mutations already made.
Key consequences visible in the source: `uids_conocidos = uids_actuales`
(line 381) is inside `if nuevos:` and runs only after the whole loop over
`nuevos` finished without raising; `pop_conn.quit()` has no modelled
effect. Returns the new watch state, the new shared `BotState`, and the
pushed notifications. -/
def ciclo_una_vuelta (env : WatchEnv) (ws : WatchState) (bs : BotState) :
    WatchState × BotState × List String :=
  match env.connect with
  | .error _ => (ws, bs, [])
  | .ok _ =>
    match env.uidl with
    | .error _ => (ws, bs, [])
    | .ok items =>
      match obtener_lista_uids_con_mapa items with
      | .error _ => (ws, bs, [])
      | .ok lm =>
        let uids_actuales := lm.1
        let uid_map := lm.2
        if ws.primera_vuelta then
          ({ uids_conocidos := uids_actuales, primera_vuelta := false }, bs, [])
        else
          match uids_actuales.filter (fun u => !(ws.uids_conocidos.contains u)) with
          | [] => (ws, bs, [])     -- `if nuevos:` false: uids_conocidos untouched
          | u :: rest =>
            match procesar_nuevos env uid_map (u :: rest) bs with
            | (bs2, ns, true) => (ws, bs2, ns)   -- raised: uids_conocidos untouched
            | (bs2, ns, false) =>
              ({ ws with uids_conocidos := uids_actuales }, bs2, ns)

/- ===================================================================
   Startup configuration (main.py 41-57)
   =================================================================== -/

/-- Why the process dies before either loop starts: `int(...)` raising
`ValueError` on a malformed `EMAIL_PORT` (line 46), or the `sys.exit(1)`
of the `not all([...])` validation (lines 55-57). -/
inductive StartupExit where
  | badPort
  | missingEnv
deriving DecidableEq, Repr

/-- The configuration record read at module top level (main.py 41-52). -/
structure Config where
  TELEGRAM_TOKEN : Option String
  TELEGRAM_CHAT_ID : Option String
  EMAIL_SERVER : Option String
  EMAIL_PORT : Int
  EMAIL_USER : Option String
  EMAIL_PASS : Option String
  PROJECT_ID : Option String
  LOCATION : String
deriving DecidableEq, Repr

/-- `int(os.getenv("EMAIL_PORT", 995))`: the default `995` is already an
int; a set but non-numeric value raises `ValueError`. -/
def portParse (g : String → Option String) : Option Int :=
  match g "EMAIL_PORT" with
  | none => some 995
  | some s => pyInt? s

/-- The module top level of main.py up to the environment validation
(lines 41-57), over an environment lookup `g` (`os.getenv`): loads every
variable, applies the defaults, and exits iff
`not all([TELEGRAM_TOKEN, EMAIL_USER, EMAIL_PASS, PROJECT_ID])`.
`TELEGRAM_CHAT_ID` and `EMAIL_SERVER` are loaded but never validated. -/
def loadConfig (g : String → Option String) : Except StartupExit Config :=
  match portParse g with
  | none => .error .badPort
  | some port =>
    let cfg : Config := {
      TELEGRAM_TOKEN := g "TELEGRAM_TOKEN"
      TELEGRAM_CHAT_ID := g "TELEGRAM_CHAT_ID"
      EMAIL_SERVER := g "EMAIL_SERVER"
      EMAIL_PORT := port
      EMAIL_USER := g "EMAIL_USER"
      EMAIL_PASS := g "EMAIL_PASS"
      PROJECT_ID := g "GOOGLE_CLOUD_PROJECT"
      LOCATION := (g "GOOGLE_CLOUD_LOCATION").getD "us-central1" }
    if optStrTruthy cfg.TELEGRAM_TOKEN && optStrTruthy cfg.EMAIL_USER &&
       optStrTruthy cfg.EMAIL_PASS && optStrTruthy cfg.PROJECT_ID then
      .ok cfg
    else .error .missingEnv

/- ===================================================================
   Concrete fixtures for counterexamples and witnesses
   =================================================================== -/

/-- A chat environment whose model call fails and whose SMTP send fails. -/
def env0 : ChatEnv := { gemini := fun _ => .error (), smtp := fun _ _ _ => false }

/-- A chat environment whose model call answers "ticket" and whose SMTP
send succeeds. -/
def envTick : ChatEnv := { gemini := fun _ => .ok "ticket", smtp := fun _ _ _ => true }

/-- A chat environment whose model call fails and whose SMTP send
succeeds. -/
def envErr : ChatEnv := { gemini := fun _ => .error (), smtp := fun _ _ _ => true }

/-- Shared state in ticket-confirmation mode. -/
def sTick : BotState := { modo_ticket := true }

/-- Shared state in reply-drafting mode with a pending sender/subject. -/
def sResp : BotState :=
  { ultimo_remitente := some "jane@x.com", ultimo_asunto := some "Hola",
    modo_respuesta := true, modo_ticket := false }

/-- Idle shared state with a pending sender/subject. -/
def sIdle : BotState :=
  { ultimo_remitente := some "jane@x.com", ultimo_asunto := some "Hola" }

/-- A concrete parsed mail message. -/
def msgS : EmailMsg :=
  { subjectRaw := some "Hola", fromHdr := some "Jane Doe <jane@x.com>",
    multipart := false, textPlain := none,
    payload := PyVal.bytes [104, 111, 108, 97], charset := none }

/-- Watch environment listing UIDs A, B, C where fetching message number 2
(UID B) raises and every other fetch succeeds. -/
def envC1 : WatchEnv :=
  { connect := .ok (), uidl := .ok ["1 A", "2 B", "3 C"],
    retr := fun n => if n = 2 then .error () else .ok msgS,
    decodeHeader := fun s => .ok [(PyVal.str s, none)],
    gemini := fun _ => .error (), sendTelegram := fun _ => .ok () }

/-- The UID map produced by listing `["1 A", "2 B", "3 C"]`. -/
def umC1 : List (String × Int) := [("A", 1), ("B", 2), ("C", 3)]

/-- Watcher state knowing only UID A, after initial sync. -/
def wsC1 : WatchState := { uids_conocidos := ["A"], primera_vuelta := false }

/-- Watch environment whose server now lists only UID A (a message was
deleted); connection and listing succeed. -/
def envC2 : WatchEnv :=
  { connect := .ok (), uidl := .ok ["1 A"],
    retr := fun _ => .error (), decodeHeader := fun _ => .error (),
    gemini := fun _ => .error (), sendTelegram := fun _ => .ok () }

/-- Watcher state knowing UIDs A and B, after initial sync. -/
def wsC2 : WatchState := { uids_conocidos := ["A", "B"], primera_vuelta := false }

/-- Watch environment listing A, B, C where fetching message number 3
(UID C) succeeds, the summary call succeeds, and pushes succeed. -/
def envC3 : WatchEnv :=
  { connect := .ok (), uidl := .ok ["1 A", "2 B", "3 C"],
    retr := fun n => if n = 3 then .ok msgS else .error (),
    decodeHeader := fun s => .ok [(PyVal.str s, none)],
    gemini := fun _ => .ok "resumen de prueba", sendTelegram := fun _ => .ok () }

/-- Watch environment whose connection step raises. -/
def envFail : WatchEnv :=
  { connect := .error (), uidl := .error (), retr := fun _ => .error (),
    decodeHeader := fun _ => .error (), gemini := fun _ => .error (),
    sendTelegram := fun _ => .error () }

/-- An environment-variable table with the four validated variables set
but `EMAIL_SERVER` and `TELEGRAM_CHAT_ID` absent. -/
def g8 : String → Option String := fun k =>
  if k = "TELEGRAM_TOKEN" then some "tok"
  else if k = "EMAIL_USER" then some "user"
  else if k = "EMAIL_PASS" then some "pass"
  else if k = "GOOGLE_CLOUD_PROJECT" then some "proj"
  else none

/-- The configuration `loadConfig` produces from `g8`. -/
def cfg8 : Config :=
  { TELEGRAM_TOKEN := some "tok", TELEGRAM_CHAT_ID := none,
    EMAIL_SERVER := none, EMAIL_PORT := 995, EMAIL_USER := some "user",
    EMAIL_PASS := some "pass", PROJECT_ID := some "proj",
    LOCATION := "us-central1" }

/- ===================================================================
   Theorems
   =================================================================== -/

/-- Helper: a recognised codec name never produces a `LookupError`. -/
theorem pyDecode_known (n : String) (bs : List Nat) (h : knownCodec n) :
    pyDecode n bs ≠ Except.error PyDecErr.lookupError := by
  simp only [knownCodec] at h
  by_cases h1 : pyLower n = "utf-8" ∨ pyLower n = "utf8" ∨ pyLower n = "u8"
  · simp only [pyDecode, h1, if_true]
    cases hu : utf8Cps bs <;> simp [hu]
  · by_cases h2 : pyLower n = "latin-1" ∨ pyLower n = "latin1" ∨
        pyLower n = "iso-8859-1" ∨ pyLower n = "l1"
    · simp [pyDecode, h1, h2]
    · by_cases h3 : pyLower n = "ascii" ∨ pyLower n = "us-ascii"
      · simp only [pyDecode, h1, h2, h3, if_false, if_true]
        split <;> simp
      · rcases h with h | h | h <;> simp_all

/-- Claim C5, counterexample: the claim says the decoder never raises for
any declared charset, including an unknown or invalid charset name. But
`decodificar_texto` only catches `UnicodeDecodeError`; with bytes `[65]`
and the unknown charset name "x-user-defined" the codec lookup raises
`LookupError`, which propagates. -/
theorem c5_counterexample :
    decodificar_texto (PyVal.bytes [65]) (some "x-user-defined") =
      Except.error PyDecErr.lookupError := by decide

/-- Claim C5, amended: for every input value and every *recognised* (or
absent/empty, defaulting to utf-8) declared charset, `decodificar_texto`
never raises: it returns the declared-charset decoding when that succeeds,
and the permissive latin-1 fallback when the declared charset fails with a
`UnicodeDecodeError`. An unrecognised charset name instead raises
`LookupError` (see the counterexample). -/
theorem c5_amended (texto : PyVal) (enc : Option String) (h : knownCodec (orUtf8 enc)) :
    (∃ s, decodificar_texto texto enc = Except.ok s) ∧
    (∀ bs, pyDecode (orUtf8 enc) bs = Except.error PyDecErr.unicodeDecodeError →
      decodificar_texto (PyVal.bytes bs) enc = Except.ok (latin1Decode bs)) := by
  constructor
  · cases texto with
    | bytes bs =>
      cases hp : pyDecode (orUtf8 enc) bs with
      | ok s => exact ⟨s, by simp [decodificar_texto, hp]⟩
      | error e =>
        cases e with
        | lookupError => exact absurd hp (pyDecode_known _ _ h)
        | unicodeDecodeError =>
          exact ⟨latin1Decode bs, by simp [decodificar_texto, hp]⟩
    | str s => exact ⟨s, rfl⟩
    | pyNone => exact ⟨"None", rfl⟩
  · intro bs hp
    simp [decodificar_texto, hp]

/-- Claim C5, witness: byte `0xFF` is invalid utf-8, so the declared
charset fails and the latin-1 fallback is returned, without raising. -/
theorem c5_amended_witness :
    decodificar_texto (PyVal.bytes [255]) (some "utf-8") =
      Except.ok (latin1Decode [255]) :=
  (c5_amended (PyVal.bytes [255]) (some "utf-8") (by decide)).2 [255] (by decide)

/-- Claim C6: from ticket-confirmation mode, every input — affirmative or
not — ends the turn with both modes cleared (the controller is Idle), so
no input can leave the state machine stuck in that state. -/
theorem c6_ticket_termina (env : ChatEnv) (s : BotState) (text : String)
    (ht : s.modo_ticket = true) (hr : s.modo_respuesta = false) :
    (responder_chat env s text).1.modo_ticket = false ∧
    (responder_chat env s text).1.modo_respuesta = false := by
  unfold responder_chat
  rw [ht]
  simp only [if_true]
  split <;> simp [hr]

/-- Claim C6, witness at a concrete affirmative input. -/
theorem c6_witness :
    (responder_chat env0 sTick "ok").1.modo_ticket = false ∧
    (responder_chat env0 sTick "ok").1.modo_respuesta = false :=
  c6_ticket_termina env0 sTick "ok" rfl rfl

/-- Claim C7, counterexample: the claim says every chat turn that begins
in one of the two awaiting modes ends with the mode set to Idle. But a
turn that begins in reply-drafting mode, whose drafted body contains a
support keyword ("ticket") and whose send succeeds, ends in
ticket-confirmation mode, not Idle. -/
theorem c7_counterexample :
    sResp.modo_respuesta = true ∧ sResp.modo_ticket = false ∧
    (responder_chat envTick sResp "manda el correo").1.modo_ticket = true := by decide

/-- Claim C7, amended: after every chat turn at most one of the two
awaiting modes is active; a turn that begins in ticket-confirmation mode
always clears it; a turn that begins in reply-drafting mode always clears
it, but may end in ticket-confirmation mode (when the send succeeds and
the drafted body contains a support keyword) rather than Idle. -/
theorem c7_amended (env : ChatEnv) (s : BotState) (text : String) :
    atMostOneMode (responder_chat env s text).1 = true ∧
    (s.modo_ticket = true → (responder_chat env s text).1.modo_ticket = false) ∧
    (s.modo_ticket = false → s.modo_respuesta = true →
      (responder_chat env s text).1.modo_respuesta = false) := by
  unfold responder_chat atMostOneMode
  cases hmt : s.modo_ticket <;> cases hmr : s.modo_respuesta <;>
    simp only [hmt, hmr] <;> split_ifs <;> simp_all

/-- Claim C7, witness at a concrete reply-drafting turn. -/
theorem c7_amended_witness :
    atMostOneMode (responder_chat envTick sResp "hola").1 = true ∧
    (responder_chat envTick sResp "hola").1.modo_respuesta = false :=
  ⟨(c7_amended envTick sResp "hola").1,
   (c7_amended envTick sResp "hola").2.2 rfl rfl⟩

/-- Claim C9: no controller turn modifies the pending sender or subject
(frame property over all environments, states and inputs); moreover an
affirmative input in Idle with a truthy pending sender re-enters
reply-drafting mode. -/
theorem c9_frame_pendientes (env : ChatEnv) (s : BotState) (text : String) :
    ((responder_chat env s text).1.ultimo_remitente = s.ultimo_remitente ∧
     (responder_chat env s text).1.ultimo_asunto = s.ultimo_asunto) ∧
    (s.modo_ticket = false → s.modo_respuesta = false →
      optStrTruthy s.ultimo_remitente = true →
      containsAny (pyLower text) idleAffirmKeys = true →
      (responder_chat env s text).1.modo_respuesta = true) := by
  unfold responder_chat
  cases hmt : s.modo_ticket <;> cases hmr : s.modo_respuesta <;>
    simp only [hmt, hmr] <;> split_ifs <;> simp_all

/-- Claim C9, witness: an idle turn on "si" keeps the pending sender and
re-enters reply-drafting mode. -/
theorem c9_witness :
    (responder_chat env0 sIdle "si").1.ultimo_remitente = some "jane@x.com" ∧
    (responder_chat env0 sIdle "si").1.modo_respuesta = true :=
  ⟨(c9_frame_pendientes env0 sIdle "si").1.1,
   (c9_frame_pendientes env0 sIdle "si").2 rfl rfl (by decide) (by decide)⟩

/-- Claim C10: when the model call fails during a reply-drafting turn, the
email is still sent with the fixed "AI unavailable" placeholder as its
body, and the support-keyword scan that can arm ticket-confirmation mode
runs over that placeholder (which contains no keyword, so the mode ends up
`exito && false = false`). -/
theorem c10_ia_fallback (env : ChatEnv) (s : BotState) (text : String)
    (ht : s.modo_ticket = false) (hr : s.modo_respuesta = true)
    (hg : env.gemini (promptRespuesta s.ultimo_remitente s.ultimo_asunto text) =
      .error ()) :
    ChatAction.email s.ultimo_remitente s.ultimo_asunto aiUnavailable
        (env.smtp s.ultimo_remitente s.ultimo_asunto aiUnavailable) ∈
      (responder_chat env s text).2 ∧
    (responder_chat env s text).1.modo_ticket =
      (env.smtp s.ultimo_remitente s.ultimo_asunto aiUnavailable &&
       containsAny (pyLower aiUnavailable) ticketScanKeys) ∧
    containsAny (pyLower aiUnavailable) ticketScanKeys = false := by
  have hk : containsAny (pyLower aiUnavailable) ticketScanKeys = false := by decide
  unfold responder_chat
  rw [ht, hr]
  simp only [preguntar_a_gemini, hg, hk, if_false, if_true, Bool.and_false]
  cases hs : env.smtp s.ultimo_remitente s.ultimo_asunto aiUnavailable <;> simp_all

/-- Claim C10, witness at a concrete failing-model environment. -/
theorem c10_witness :
    ChatAction.email (some "jane@x.com") (some "Hola") aiUnavailable true ∈
      (responder_chat envErr sResp "hola").2 ∧
    (responder_chat envErr sResp "hola").1.modo_ticket = false :=
  ⟨(c10_ia_fallback envErr sResp "hola" rfl rfl rfl).1,
   (c10_ia_fallback envErr sResp "hola" rfl rfl rfl).2.1⟩

/-- Claim C1, counterexample: the claim says a failure on one new message
does not abort processing of the remaining new identifiers. With known set
A and listing A, B, C, where fetching B raises but C would process fine
(valid sequence number, own processing succeeds in isolation), the cycle
produces no notification at all: C is never fetched or notified, because
no per-message exception handler exists. -/
theorem c1_counterexample :
    ciclo_una_vuelta envC1 wsC1 bs0 = (wsC1, bs0, []) ∧
    obtener_lista_uids_con_mapa ["1 A", "2 B", "3 C"] =
      .ok (["A", "B", "C"], umC1) ∧
    (procesar_uid envC1 umC1 bs0 "C").2.2 = false ∧
    (procesar_uid envC1 umC1 bs0 "C").2.1.length = 1 := by decide

/-- Claim C1, amended: an exception while processing one individual new
message aborts the remainder of the cycle: the identifiers after it are
not fetched or notified, `uids_conocidos` is left unchanged (so all new
identifiers are re-detected next cycle), and the failure is logged at
cycle level. -/
theorem c1_amended (env : WatchEnv) (ws : WatchState) (bs bs2 : BotState)
    (items ua : List String) (um : List (String × Int)) (u : String)
    (rest : List String)
    (hp : ws.primera_vuelta = false)
    (hc : env.connect = .ok ()) (hu : env.uidl = .ok items)
    (hl : obtener_lista_uids_con_mapa items = .ok (ua, um))
    (hn : ua.filter (fun x => !(ws.uids_conocidos.contains x)) = u :: rest)
    (hf : procesar_uid env um bs u = (bs2, [], true)) :
    ciclo_una_vuelta env ws bs = (ws, bs2, []) := by
  simp only [ciclo_una_vuelta, hc, hu, hl, hp, if_false, hn]
  simp only [procesar_nuevos, hf]
  simp

/-- Claim C1, witness: the concrete aborted cycle of the counterexample,
derived through the amended theorem (the failing message is B, and C,
which follows it, yields no notification). -/
theorem c1_amended_witness : ciclo_una_vuelta envC1 wsC1 bs0 = (wsC1, bs0, []) :=
  c1_amended envC1 wsC1 bs0 bs0 ["1 A", "2 B", "3 C"] ["A", "B", "C"] umC1 "B" ["C"]
    rfl rfl rfl (by decide) (by decide) (by decide)

/-- Claim C2, counterexample: the claim says every successful cycle
replaces the known set wholesale, so it stays a subset of the server
listing. With known set A, B and a successful poll listing only A (B was
deleted), no new identifier is detected, the set is left at A, B, and B is
not on the server — the subset invariant fails. -/
theorem c2_counterexample :
    ciclo_una_vuelta envC2 wsC2 bs0 = (wsC2, bs0, []) ∧
    obtener_lista_uids_con_mapa ["1 A"] = .ok (["A"], [("A", 1)]) ∧
    (ciclo_una_vuelta envC2 wsC2 bs0).1.uids_conocidos = ["A", "B"] ∧
    ("B" ∈ wsC2.uids_conocidos ∧ "B" ∉ ["A"]) := by decide

/-- Claim C2, amended: after a successful poll, `uids_conocidos` is
replaced with the full current listing only when at least one new
identifier was detected and the whole per-message loop finished without
raising; when no new identifier is detected the set is left unchanged
(so it can retain identifiers deleted from the server). -/
theorem c2_amended (env : WatchEnv) (ws : WatchState) (bs : BotState)
    (items ua : List String) (um : List (String × Int))
    (hp : ws.primera_vuelta = false)
    (hc : env.connect = .ok ()) (hu : env.uidl = .ok items)
    (hl : obtener_lista_uids_con_mapa items = .ok (ua, um)) :
    (ua.filter (fun x => !(ws.uids_conocidos.contains x)) = [] →
      (ciclo_una_vuelta env ws bs).1 = ws) ∧
    (∀ u rest bs2 ns,
      ua.filter (fun x => !(ws.uids_conocidos.contains x)) = u :: rest →
      procesar_nuevos env um (u :: rest) bs = (bs2, ns, false) →
      (ciclo_una_vuelta env ws bs).1.uids_conocidos = ua) := by
  constructor
  · intro hnil
    simp only [ciclo_una_vuelta, hc, hu, hl, hp, if_false, hnil]
    simp
  · intro u rest bs2 ns hcons hproc
    simp only [ciclo_una_vuelta, hc, hu, hl, hp, if_false, hcons, hproc]
    simp

/-- Claim C2, witness: the deleted-message cycle of the counterexample,
derived through the amended theorem (no new identifier, set unchanged). -/
theorem c2_amended_witness : (ciclo_una_vuelta envC2 wsC2 bs0).1 = wsC2 :=
  (c2_amended envC2 wsC2 bs0 ["1 A"] ["A"] [("A", 1)] rfl rfl rfl
    (by decide)).1 (by decide)

/-- Claim C3: with known set containing exactly a, b and a successful poll
listing a, b, c where c is genuinely new and carries a valid (non-zero)
sequence number whose fetch, summary and push succeed, the cycle pushes
exactly one notification, built from the message fetched at c's sequence
number, and ends with the known set equal to the full listing a, b, c. -/
theorem c3_nueva_deteccion (env : WatchEnv) (bs : BotState) (a b c : String)
    (items : List String) (um : List (String × Int)) (n : Int) (msg : EmailMsg)
    (hac : ¬ a = c) (hbc : ¬ b = c)
    (hc1 : env.connect = .ok ()) (hu : env.uidl = .ok items)
    (hl : obtener_lista_uids_con_mapa items = .ok ([a, b, c], um))
    (hm : mapGet? um c = some n) (hn0 : ¬ n = 0)
    (hr : env.retr n = .ok msg)
    (hsend : ∀ t, env.sendTelegram t = .ok ()) :
    ciclo_una_vuelta env ⟨[a, b], false⟩ bs =
      (⟨[a, b, c], false⟩,
       { bs with
         ultimo_remitente :=
           some (limpiarRemitente (obtener_asunto_y_remitente env.decodeHeader msg).2),
         ultimo_asunto := some (obtener_asunto_y_remitente env.decodeHeader msg).1 },
       [mkAlerta (obtener_asunto_y_remitente env.decodeHeader msg).2
          (obtener_asunto_y_remitente env.decodeHeader msg).1
          (preguntar_a_gemini env.gemini
            (mkResumenPrompt (obtener_asunto_y_remitente env.decodeHeader msg).2
              (obtener_asunto_y_remitente env.decodeHeader msg).1
              (obtener_cuerpo msg)))]) := by
  have hfil : ([a, b, c].filter
      (fun u => !((⟨[a, b], false⟩ : WatchState).uids_conocidos.contains u))) = [c] := by
    simp [List.filter, List.contains, hac, hbc, Ne.symm hac, Ne.symm hbc]
  simp only [ciclo_una_vuelta, hc1, hu, hl]
  simp only [hfil]
  simp only [procesar_nuevos, procesar_uid, hm, hn0, if_false, hr, hsend]
  simp

/-- Claim C3, witness: concrete listing A, B, C with known set A, B;
exactly one notification fires, for C. -/
theorem c3_witness :
    ciclo_una_vuelta envC3 ⟨["A", "B"], false⟩ bs0 =
      (⟨["A", "B", "C"], false⟩,
       { bs0 with ultimo_remitente := some "jane@x.com", ultimo_asunto := some "Hola" },
       [mkAlerta "Jane Doe <jane@x.com>" "Hola" "resumen de prueba"]) :=
  c3_nueva_deteccion envC3 bs0 "A" "B" "C" ["1 A", "2 B", "3 C"] umC1 3 msgS
    (by decide) (by decide) rfl rfl (by decide) (by decide) (by decide) (by decide)
    (fun _ => rfl)

/-- Claim C4: if the connection/auth step, the listing call, or the
listing parse raises, the cycle leaves the known set and the shared state
exactly as they were and pushes no notification. -/
theorem c4_fallo_ciclo_aislado (env : WatchEnv) (ws : WatchState) (bs : BotState)
    (h : env.connect = .error () ∨ env.uidl = .error () ∨
         (∃ items, env.uidl = .ok items ∧
            obtener_lista_uids_con_mapa items = .error ())) :
    ciclo_una_vuelta env ws bs = (ws, bs, []) := by
  rcases h with h | h | ⟨items, hi, hm⟩
  · simp only [ciclo_una_vuelta, h]
  · cases hc : env.connect with
    | error e => simp only [ciclo_una_vuelta, hc]
    | ok v => simp only [ciclo_una_vuelta, hc, h]
  · cases hc : env.connect with
    | error e => simp only [ciclo_una_vuelta, hc]
    | ok v => simp only [ciclo_una_vuelta, hc, hi, hm]

/-- Claim C4, witness: a concrete failing connection. -/
theorem c4_witness : ciclo_una_vuelta envFail wsC1 bs0 = (wsC1, bs0, []) :=
  c4_fallo_ciclo_aislado envFail wsC1 bs0 (Or.inl rfl)

/-- Claim C8, counterexample: the claim says a missing mail server (or any
listed value) makes the process exit at startup. With the four actually
validated variables present but `EMAIL_SERVER` and `TELEGRAM_CHAT_ID`
absent, startup succeeds — no exit happens. -/
theorem c8_counterexample :
    loadConfig g8 = Except.ok cfg8 ∧ g8 "EMAIL_SERVER" = none ∧
    g8 "TELEGRAM_CHAT_ID" = none := by decide

/-- Claim C8, amended: startup succeeds iff `EMAIL_PORT` parses (it
defaults to 995 when absent) and each of `TELEGRAM_TOKEN`, `EMAIL_USER`,
`EMAIL_PASS` and `GOOGLE_CLOUD_PROJECT` is present and non-empty;
`EMAIL_SERVER` and `TELEGRAM_CHAT_ID` are never validated, and
`GOOGLE_CLOUD_LOCATION` has a default. -/
theorem c8_amended (g : String → Option String) :
    (∃ cfg, loadConfig g = Except.ok cfg) ↔
      (portParse g ≠ none ∧
       optStrTruthy (g "TELEGRAM_TOKEN") = true ∧
       optStrTruthy (g "EMAIL_USER") = true ∧
       optStrTruthy (g "EMAIL_PASS") = true ∧
       optStrTruthy (g "GOOGLE_CLOUD_PROJECT") = true) := by
  cases hp : portParse g with
  | none => simp [loadConfig, hp]
  | some port =>
    simp only [loadConfig, hp]
    constructor
    · rintro ⟨cfg, hcfg⟩
      split_ifs at hcfg with hall
      simp only [Bool.and_eq_true] at hall
      exact ⟨by simp, hall.1.1.1, hall.1.1.2, hall.1.2, hall.2⟩
    · rintro ⟨-, h1, h2, h3, h4⟩
      simp [h1, h2, h3, h4]

/-- Claim C8, witness: the concrete environment of the counterexample
passes startup through the amended criterion. -/
theorem c8_amended_witness : ∃ cfg, loadConfig g8 = Except.ok cfg :=
  (c8_amended g8).mpr (by decide)

end JoulIAna
